import Mathlib

/-!
Shallow embedding of the Xprz convenience layer over Express.

Handlers and middleware functions are opaque callables; we identify them by
natural-number tags.  An Express router is modelled as the ordered list of
registration calls made against it: plain verb registrations and sub-router
mounts (`router.use(mainRoute, subrouter)`).
-/

namespace Xprz

/-- Opaque request handler / middleware function, identified by a tag. -/
abbrev Handler := Nat

/-- HTTP verbs used by RouteManager (`get`, `post`, `put`, `delete`). -/
inductive Method where
  | get
  | post
  | put
  | delete
deriving DecidableEq, Repr

/-- One registration made on an Express router: either a verb route
(`router[method](path, handlers)` — the path is `Option String` because the
JS code passes `this.p`, which is `undefined` until `setRoute` ran), or a
mount of a sub-router under a mount path (`router.use(mainRoute, sub)`). -/
inductive RouterEntry where
  | route (method : Method) (path : Option String) (handlers : List Handler)
  | mount (mainRoute : String) (entries : List RouterEntry)

/-- An Express router: the ordered list of registrations made against it. -/
abbrev Router := List RouterEntry

mutual

/-- All verb routes reachable through one router entry, with mount paths
prepended to the registered paths (Express dispatch for mounted routers). -/
def flattenEntry : RouterEntry → List (Method × Option String × List Handler)
  | .route m p hs => [(m, p, hs)]
  | .mount mainRoute es =>
      (flattenEntries es).map (fun x => (x.1, x.2.1.map (fun q => mainRoute ++ q), x.2.2))

/-- All verb routes reachable through a router, mounts flattened. -/
def flattenEntries : List RouterEntry → List (Method × Option String × List Handler)
  | [] => []
  | e :: es => flattenEntry e ++ flattenEntries es

end

/-- State of a `RouteManager` node (src/shared/RouteManager.js): its own
Express router, the middleware list, the `hasMiddleware` flag (a separate
mutable field in the JS class, only written inside `use`), and the base
path `p` (undefined until `setRoute`). -/
structure RouteManager where
  router : Router
  middlewares : List Handler
  hasMiddleware : Bool
  p : Option String

namespace RouteManager

/-- `new RouteManager()`: fresh router, empty middleware list.  The
`hasMiddleware` field is `undefined` (falsy) and `p` is `undefined`. -/
def new : RouteManager :=
  { router := [], middlewares := [], hasMiddleware := false, p := none }

/-- `use(middleware)`: push onto `this.middlewares`, recompute
`this.hasMiddleware = this.middlewares.length > 0 ? true : false`, return
`this`. -/
def use (s : RouteManager) (middleware : Handler) : RouteManager :=
  let ms := s.middlewares ++ [middleware]
  { s with middlewares := ms, hasMiddleware := decide (0 < ms.length) }

/-- `setRoute(path)`: `this.p = path`, return `this`. -/
def setRoute (s : RouteManager) (path : String) : RouteManager :=
  { s with p := some path }

/-- `registerRoute(method, handlers)` (private): registers
`[...this.middlewares, ...handlers]` under `this.p` on the router. -/
def registerRoute (s : RouteManager) (method : Method) (handlers : List Handler) :
    RouteManager :=
  { s with router := s.router ++ [.route method s.p (s.middlewares ++ handlers)] }

/-- `get(...handlers)`: if `this.hasMiddleware`, first registers through
`registerRoute("get", handlers)`; then unconditionally runs
`this.router.get(this.p, ...handlers)`. -/
def get (s : RouteManager) (handlers : List Handler) : RouteManager :=
  let s1 := if s.hasMiddleware then s.registerRoute .get handlers else s
  { s1 with router := s1.router ++ [.route .get s1.p handlers] }

/-- `post(...handlers)`: `this.router.post(this.p, ...handlers)` only. -/
def post (s : RouteManager) (handlers : List Handler) : RouteManager :=
  { s with router := s.router ++ [.route .post s.p handlers] }

/-- `put(...handlers)`: `this.router.put(this.p, ...handlers)` only. -/
def put (s : RouteManager) (handlers : List Handler) : RouteManager :=
  { s with router := s.router ++ [.route .put s.p handlers] }

/-- `del(...handlers)`: `this.router.delete(this.p, ...handlers)` only. -/
def del (s : RouteManager) (handlers : List Handler) : RouteManager :=
  { s with router := s.router ++ [.route .delete s.p handlers] }

/-- `group(mainRoute, callback)`: allocates a fresh child RouteManager,
runs the callback on it, then mounts the child router with
`this.router.use(mainRoute, subRouteManager.router)`. -/
def group (s : RouteManager) (mainRoute : String)
    (callback : RouteManager → RouteManager) : RouteManager :=
  let subRouteManager := callback new
  { s with router := s.router ++ [.mount mainRoute subRouteManager.router] }

end RouteManager

/-! ## AppManager (src/shared/AppManager.js) -/

/-- Opaque Express application handle, identified by a tag. -/
abbrev AppHandle := Nat

/-- Observable side effects of AppManager methods: writing a line with
`console.log`, or calling the underlying `listen(app, port, textLog, log)`
helper. -/
inductive Effect where
  | consoleLog (msg : String)
  | serverListen (app : Option AppHandle) (port : Nat) (textLog : String) (log : Bool)

/-- Mutable state of the `AppManager` class: `this.app` (null until
`initApp`) and `this.runApp`. -/
structure AppManager where
  app : Option AppHandle
  runApp : Bool

namespace AppManager

/-- `new AppManager()`: `this.app = null; this.runApp = false`. -/
def new : AppManager := { app := none, runApp := false }

/-- `initApp()`: `this.app = initApp(); setApp(this.app); this.runApp = true;
return this.app`.  The fresh handle produced by the `initApp` helper is a
parameter. -/
def initApp (_s : AppManager) (fresh : AppHandle) : AppManager × AppHandle :=
  ({ app := some fresh, runApp := true }, fresh)

/-- `listen(port, textLog, log)`: if `this.runApp`, delegates to the
`listen` helper; otherwise runs
`console.log('Express app has not been initialized yet.')`.  The function
returns normally on both branches; `Except.error` would model a thrown JS
exception, which this method never produces. -/
def listen (s : AppManager) (port : Nat) (textLog : String) (log : Bool) :
    Except String (List Effect) :=
  if s.runApp then
    .ok [.serverListen s.app port textLog log]
  else
    .ok [.consoleLog "Express app has not been initialized yet."]

end AppManager

/-! ## ensurePackage (src/manager/Dependencies.js) -/

/-- Opaque npm package value, identified by a tag. -/
abbrev Pkg := Nat

/-- `ensurePackage(packageName)`: `require(packageName)` inside try/catch;
on failure throws
`` Error(`The '${packageName}' module is not installed. Please make sure to
install it by running 'npm install ${packageName}' before using sessions.`) ``.
The ambient module resolver (`require`) is the `resolve` parameter; `none`
models a `require` that throws. -/
def ensurePackage (resolve : String → Option Pkg) (packageName : String) :
    Except String Pkg :=
  match resolve packageName with
  | some requiredPackage => .ok requiredPackage
  | none =>
      .error ("The \x27" ++ packageName ++
        "\x27 module is not installed. Please make sure to install it by running \x27npm install "
        ++ packageName ++ "\x27 before using sessions.")

/-! ## jwtHandler.isTokenExpired (src/handler/jwtHandler.js) -/

/-- Decoded JWT payload as far as `isTokenExpired` inspects it: just the
`exp` claim.  `none` models an absent (or otherwise falsy-`undefined`)
field; the numeric value is kept as an integer. -/
structure JwtPayload where
  exp : Option Int

/-- `isTokenExpired(token)`:
`decoded = this.jwt.decode(token); if (!decoded || !decoded.exp) return
false; return Date.now() >= decoded.exp * 1000;` with the whole body in a
try/catch returning `false`.  `decode` is the ambient `jwt.decode` (`none`
models both a `null` result and a throw), `now` is `Date.now()`.
JS truthiness: `!decoded.exp` is also true when `exp` is the number `0`. -/
def isTokenExpired (decode : String → Option JwtPayload) (now : Int)
    (token : String) : Bool :=
  match decode token with
  | none => false
  | some decoded =>
      match decoded.exp with
      | none => false
      | some e => if e = 0 then false else decide (now ≥ e * 1000)

/-! ## ReqEnhancer (src/handler/router/req/ReqEnhancer.js) -/

/-- The slice of the native request object that the query-parameter
accessors read: `req.query` as a key-value map (Express never stores
`undefined` values in `req.query`). -/
structure Req where
  query : List (String × String)

namespace ReqEnhancer

/-- `hasQueryParam(paramName)`: `paramName in this.req.query`. -/
def hasQueryParam (req : Req) (paramName : String) : Bool :=
  (req.query.lookup paramName).isSome

/-- `getQueryParam(paramName)`: `this.req.query[paramName]`; `none` models
`undefined`. -/
def getQueryParam (req : Req) (paramName : String) : Option String :=
  req.query.lookup paramName

end ReqEnhancer

/-! ## PackageManager.session (src/manager/PackageManager.js) -/

/-- Middleware value produced by `session(...options)`, tagged by the
resolved package and the options object. -/
abbrev SessionMw := Pkg × Nat

/-- Process state seen by PackageManager: the module-level `connectMongo`
flag and the middleware registered so far on the shared app via `useApp`. -/
structure PkgProcState where
  connectMongo : Bool
  appMiddlewares : List SessionMw

/-- `initSession()`: `if (connectMongo) return $install("express-session");
return null`.  `resolve` is the ambient `$install`; its `none` result
models an install/require failure (a throw). -/
def initSession (resolve : String → Option Pkg) (st : PkgProcState) :
    Except String (Option Pkg) :=
  if st.connectMongo then
    match resolve "express-session" with
    | some pkg => .ok (some pkg)
    | none => .error "express-session installation failed"
  else
    .ok none

/-- `PackageManager.session(...options)`: `const session = initSession();
if (session) { useApp(session(...options)); } else {
console.warn("Session initialization skipped. connectMongo is false."); }`. -/
def PackageManager.session (resolve : String → Option Pkg) (st : PkgProcState)
    (options : Nat) : Except String (PkgProcState × List Effect) :=
  match initSession resolve st with
  | .error e => .error e
  | .ok (some pkg) =>
      .ok ({ st with appMiddlewares := st.appMiddlewares ++ [(pkg, options)] }, [])
  | .ok none =>
      .ok (st, [.consoleLog "Session initialization skipped. connectMongo is false."])

/-- The flag assignment `connectMongo = true` performed at the start of
`PackageManager.connectMongoDbSession(...)` (the only write that sets it). -/
def PackageManager.setConnectMongo (st : PkgProcState) : PkgProcState :=
  { st with connectMongo := true }

/-! ## JSON senders.

Modelled from the spec: the `JsonHandler` class implementing the JSON
response senders is not among the provided source files (only its
documentation under docs/routes/res/json.doc.md is), so the senders are
modelled from the spec's external-interface table of status codes and body
shapes. -/

/-- Body shapes of the JSON response envelopes. -/
inductive JsonBody where
  | message (msg : String)
  | messageData (msg : String) (data : Nat)
  | objectBody (obj : Nat)
  | errorsMap (errors : List (String × String))
deriving DecidableEq, Repr

/-- A finalized JSON response: HTTP status code plus body. -/
structure JsonResponse where
  status : Nat
  body : JsonBody
deriving DecidableEq, Repr

namespace JsonHandler

/-- Modelled from the spec: fixed message sent by `rateLimitExceeded`. -/
def rateLimitMessage : String := "Rate limit exceeded"

/-- Modelled from the spec: `success` → 200 with `{ message }` or
`{ message, data }`. -/
def success (msg : String) (data : Option Nat) : JsonResponse :=
  match data with
  | none => ⟨200, .message msg⟩
  | some d => ⟨200, .messageData msg d⟩

/-- Modelled from the spec: `created` → 201 with the created object. -/
def created (obj : Nat) : JsonResponse := ⟨201, .objectBody obj⟩

/-- Modelled from the spec: `updated` → 200 with the updated object. -/
def updated (obj : Nat) : JsonResponse := ⟨200, .objectBody obj⟩

/-- Modelled from the spec: `deleted` → 200 with the deleted object. -/
def deleted (obj : Nat) : JsonResponse := ⟨200, .objectBody obj⟩

/-- Modelled from the spec: `validationFailed` → 400 with the errors map. -/
def validationFailed (errors : List (String × String)) : JsonResponse :=
  ⟨400, .errorsMap errors⟩

/-- Modelled from the spec: `badRequest` → 400 with `{ message }`. -/
def badRequest (msg : String) : JsonResponse := ⟨400, .message msg⟩

/-- Modelled from the spec: `authRequired` → 401 with `{ message }`. -/
def authRequired (msg : String) : JsonResponse := ⟨401, .message msg⟩

/-- Modelled from the spec: `forbidden` → 403 with `{ message }`. -/
def forbidden (msg : String) : JsonResponse := ⟨403, .message msg⟩

/-- Modelled from the spec: `notFound` → 404 with `{ message }`. -/
def notFound (msg : String) : JsonResponse := ⟨404, .message msg⟩

/-- Modelled from the spec: `rateLimitExceeded` → 429 with its fixed
message. -/
def rateLimitExceeded : JsonResponse := ⟨429, .message rateLimitMessage⟩

/-- Modelled from the spec: `internalServerError` → 500 with `{ message }`. -/
def internalServerError (msg : String) : JsonResponse := ⟨500, .message msg⟩

/-- Modelled from the spec: `serviceUnavailable` → 503 with `{ message }`. -/
def serviceUnavailable (msg : String) : JsonResponse := ⟨503, .message msg⟩

end JsonHandler

/-! ## Theorems -/

/-- Flattening a concatenation of router registrations concatenates the
flattened route lists. -/
theorem flattenEntries_append (a b : List RouterEntry) :
    flattenEntries (a ++ b) = flattenEntries a ++ flattenEntries b := by
  induction a with
  | nil => simp [flattenEntries]
  | cons e es ih => simp [flattenEntries, ih]

/-- Claim C1 (code bug): evaluation at the failing input.  On a node with
middleware chain `[5]` and base path `/a`, a single `get([7])` call
registers the GET route TWICE with the underlying router — once with the
chain prepended (`[5, 7]`) and once without it (`[7]`) — and a single
`post([7])` call registers the route once but WITHOUT the chain, contrary
to the claim that each verb call registers exactly once with the chain
prepended once. -/
theorem routeManager_get_double_registration :
    (((RouteManager.new.use 5).setRoute "/a").get [7]).router =
      [.route .get (some "/a") [5, 7], .route .get (some "/a") [7]]
    ∧ (((RouteManager.new.use 5).setRoute "/a").post [7]).router =
      [.route .post (some "/a") [7]] :=
  ⟨rfl, rfl⟩

/-- Claim C3 (counterexample): after `use(10); use(20); setRoute("/a")`, the
verb registration `post([30])` produces the single registered handler
sequence `[30]` — the middlewares `10` and `20` do not appear in it at all,
so the claim that any verb registration places `m1` before `m2` and before
the handlers fails for `post` (and likewise `put`/`del`). -/
theorem routeManager_post_drops_middleware :
    ((((RouteManager.new.use 10).use 20).setRoute "/a").post [30]).router =
      [.route .post (some "/a") [30]]
    ∧ (10 : Handler) ∉ [(30 : Handler)] :=
  ⟨rfl, by decide⟩

/-- Claim C3 (amended): for the `get` verb — the only verb-registration
method that consults the middleware list — `use(m1); use(m2)` followed by
`get(handlers)` registers, in its middleware-bearing registration, the
handler sequence `middlewares ++ [m1, m2] ++ handlers`: `m1` before `m2`
and both before the route handlers, insertion order preserved and no
de-duplication (a second, chain-free registration is also appended; see
the C1 result). -/
theorem routeManager_get_middleware_order (s : RouteManager) (m1 m2 : Handler)
    (path : String) (hs : List Handler) :
    ((((s.use m1).use m2).setRoute path).get hs).router =
      s.router ++
        [.route .get (some path) (s.middlewares ++ [m1, m2] ++ hs),
         .route .get (some path) hs] := by
  simp [RouteManager.use, RouteManager.setRoute, RouteManager.get,
    RouteManager.registerRoute]

/-- Claim C4: `group(mainRoute, callback)` creates a fresh child
RouteManager, runs the callback on it, and mounts the child's router under
`mainRoute`, so every route reachable in the child at `childPath`
(including routes of arbitrarily nested sub-groups, which `flattenEntries`
resolves recursively) is reachable on the parent at
`mainRoute ++ childPath`, with the same handler sequence. -/
theorem routeManager_group_mounts_child_routes (s : RouteManager)
    (mainRoute : String) (callback : RouteManager → RouteManager)
    (m : Method) (childPath : String) (hs : List Handler)
    (h : (m, some childPath, hs) ∈
      flattenEntries (callback RouteManager.new).router) :
    (m, some (mainRoute ++ childPath), hs) ∈
      flattenEntries (s.group mainRoute callback).router := by
  have h2 := List.mem_map_of_mem
    (fun x : Method × Option String × List Handler =>
      (x.1, x.2.1.map (fun q => mainRoute ++ q), x.2.2)) h
  simp only [RouteManager.group, flattenEntries_append, flattenEntries,
    flattenEntry, List.append_nil, List.mem_append]
  right
  simpa using h2

/-- Witness for C4 at a concrete input: a GET route declared at `/u`
inside a group with main route `/api` is reachable at `/api/u`. -/
theorem routeManager_group_mounts_child_routes_witness :
    (Method.get, some "/api/u", [(7 : Handler)]) ∈
      flattenEntries
        ((RouteManager.new.group "/api"
          (fun r => (r.setRoute "/u").get [7])).router) :=
  routeManager_group_mounts_child_routes RouteManager.new "/api"
    (fun r => (r.setRoute "/u").get [7]) .get "/u" [7]
    (by simp [RouteManager.new, RouteManager.setRoute, RouteManager.get,
      flattenEntries, flattenEntry])

/-- Claim C8: `setRoute(p)` sets the base path to `p`, a second call
overwrites it (last call wins), and every other field of the node — the
router, the middleware list, and the `hasMiddleware` flag — is left
unchanged. -/
theorem routeManager_setRoute_frame (s : RouteManager) (p1 p2 : String) :
    (s.setRoute p1).p = some p1 ∧
    ((s.setRoute p1).setRoute p2).p = some p2 ∧
    (s.setRoute p1).middlewares = s.middlewares ∧
    (s.setRoute p1).hasMiddleware = s.hasMiddleware ∧
    (s.setRoute p1).router = s.router :=
  ⟨rfl, rfl, rfl, rfl, rfl⟩

/-- Claim C2 (code bug): evaluation at the failing input.  On a fresh
AppManager (no handle initialized), `listen` — for every port, message
and log flag — returns normally (`Except.ok`, i.e. no error is thrown)
and merely writes the exact string
"Express app has not been initialized yet." with `console.log`, whereas
the claim (and the repository's own test of the sibling `App` class, which
expects `toThrowError` with this very message) demands that the call fail
with that error. -/
theorem appManager_listen_logs_instead_of_throwing (port : Nat)
    (textLog : String) (log : Bool) :
    AppManager.new.listen port textLog log =
      .ok [.consoleLog "Express app has not been initialized yet."] :=
  rfl

/-- Claim C5: each JSON-sender method yields exactly the status code and
body shape of the external-interface table; in particular `notFound x` is
status 404 with body `{ message: x }` and `rateLimitExceeded` is status
429 with its fixed message. -/
theorem jsonHandler_status_table (x : String) (obj : Nat) (d : Nat)
    (errs : List (String × String)) :
    JsonHandler.success x none = ⟨200, .message x⟩ ∧
    JsonHandler.success x (some d) = ⟨200, .messageData x d⟩ ∧
    JsonHandler.created obj = ⟨201, .objectBody obj⟩ ∧
    JsonHandler.updated obj = ⟨200, .objectBody obj⟩ ∧
    JsonHandler.deleted obj = ⟨200, .objectBody obj⟩ ∧
    JsonHandler.validationFailed errs = ⟨400, .errorsMap errs⟩ ∧
    JsonHandler.badRequest x = ⟨400, .message x⟩ ∧
    JsonHandler.authRequired x = ⟨401, .message x⟩ ∧
    JsonHandler.forbidden x = ⟨403, .message x⟩ ∧
    JsonHandler.notFound x = ⟨404, .message x⟩ ∧
    JsonHandler.rateLimitExceeded = ⟨429, .message JsonHandler.rateLimitMessage⟩ ∧
    JsonHandler.internalServerError x = ⟨500, .message x⟩ ∧
    JsonHandler.serviceUnavailable x = ⟨503, .message x⟩ :=
  ⟨rfl, rfl, rfl, rfl, rfl, rfl, rfl, rfl, rfl, rfl, rfl, rfl, rfl⟩

/-- Claim C6: whenever the module resolver fails for a package name,
`ensurePackage` fails with an error whose message contains that package
name as a substring (so the missing-optional-dependency error is
distinguishable and names the capability). -/
theorem ensurePackage_error_names_package (resolve : String → Option Pkg)
    (packageName : String) (h : resolve packageName = none) :
    ∃ msg, ensurePackage resolve packageName = .error msg ∧
      ∃ a b, msg = a ++ packageName ++ b := by
  refine ⟨"The \x27" ++ packageName ++
      ("\x27 module is not installed. Please make sure to install it by running \x27npm install "
        ++ packageName ++ "\x27 before using sessions."), ?_,
    "The \x27",
    "\x27 module is not installed. Please make sure to install it by running \x27npm install "
      ++ packageName ++ "\x27 before using sessions.", rfl⟩
  simp [ensurePackage, h, String.append_assoc]

/-- Witness for C6 at a concrete input: with a resolver that cannot find
any package, requesting "cors" produces an error message containing
"cors". -/
theorem ensurePackage_error_names_package_witness :
    ∃ msg, ensurePackage (fun _ => none) "cors" = .error msg ∧
      ∃ a b, msg = a ++ "cors" ++ b :=
  ensurePackage_error_names_package (fun _ => none) "cors" rfl

/-- Claim C7: the query-parameter accessors agree — whenever
`hasQueryParam` answers `false` for a key, `getQueryParam` returns
`undefined` (`none`) for that key. -/
theorem reqEnhancer_query_agreement (req : Req) (k : String)
    (h : ReqEnhancer.hasQueryParam req k = false) :
    ReqEnhancer.getQueryParam req k = none := by
  unfold ReqEnhancer.hasQueryParam at h
  unfold ReqEnhancer.getQueryParam
  cases hl : req.query.lookup k with
  | none => rfl
  | some v => rw [hl] at h; simp at h

/-- Witness for C7 at a concrete input: the key "b" is absent from a
request whose query map holds only "a". -/
theorem reqEnhancer_query_agreement_witness :
    ReqEnhancer.hasQueryParam ⟨[("a", "1")]⟩ "b" = false ∧
    ReqEnhancer.getQueryParam ⟨[("a", "1")]⟩ "b" = none :=
  ⟨by decide, reqEnhancer_query_agreement ⟨[("a", "1")]⟩ "b" (by decide)⟩

/-- Claim C9: when the module-level `connectMongo` flag is false (i.e.
`connectMongoDbSession` has not run), `PackageManager.session` leaves the
process state unchanged, registers nothing on the app, raises no error,
and only logs the skip warning; and `connectMongoDbSession`'s flag
assignment is what sets `connectMongo` to true. -/
theorem packageManager_session_requires_connectMongo
    (resolve : String → Option Pkg) (st : PkgProcState) (options : Nat)
    (h : st.connectMongo = false) :
    PackageManager.session resolve st options =
      .ok (st, [.consoleLog "Session initialization skipped. connectMongo is false."]) ∧
    (PackageManager.setConnectMongo st).connectMongo = true := by
  constructor
  · simp [PackageManager.session, initSession, h]
  · rfl

/-- Witness for C9 at a concrete input: a fresh process state with the
flag unset. -/
theorem packageManager_session_requires_connectMongo_witness :
    PackageManager.session (fun _ => none) ⟨false, []⟩ 0 =
      .ok (⟨false, []⟩,
        [.consoleLog "Session initialization skipped. connectMongo is false."]) ∧
    (PackageManager.setConnectMongo ⟨false, []⟩).connectMongo = true :=
  packageManager_session_requires_connectMongo (fun _ => none) ⟨false, []⟩ 0 rfl

/-- Claim C10 (counterexample): a token whose payload decodes successfully
and carries the field `exp = 0` refutes the claim: the payload does not
lack an `exp` field and the current time `5` is at (in fact past)
`exp * 1000 = 0`, so the claim demands `true`, but `isTokenExpired`
returns `false` (JS `!decoded.exp` is true for the number 0). -/
theorem jwtHandler_isTokenExpired_exp_zero :
    isTokenExpired (fun _ => some ⟨some 0⟩) 5 "t" = false ∧
    (5 : Int) ≥ 0 * 1000 :=
  ⟨rfl, by decide⟩

/-- Claim C10 (amended): `isTokenExpired` never throws (it is a total
function of its inputs); it returns `true` exactly when the token decodes,
the decoded payload carries an `exp` field that is not the (JS-falsy)
number 0, and the current time is at or past `exp * 1000` milliseconds —
so in particular it returns `false` whenever the token cannot be decoded
or the `exp` field is absent or 0. -/
theorem jwtHandler_isTokenExpired_iff (decode : String → Option JwtPayload)
    (now : Int) (token : String) :
    isTokenExpired decode now token = true ↔
      ∃ d e, decode token = some d ∧ d.exp = some e ∧ e ≠ 0 ∧
        now ≥ e * 1000 := by
  unfold isTokenExpired
  cases h : decode token with
  | none => simp
  | some d =>
    cases he : d.exp with
    | none => simp [he]
    | some e =>
      by_cases h0 : e = 0
      · simp [he, h0]
      · simp [he, h0]

end Xprz
